import Mathlib

/-!
Verification of the relay-policy engine (src/policy/policy.cpp).

The policy functions themselves (GetDustThreshold, IsDust, IsStandard,
IsStandardTx, AreInputsStandard, IsWitnessStandard,
GetVirtualTransactionSize) are translated directly from the source.
External collaborators that the source file calls but that are not part of
the repository snapshot (script opcode decoding, the solver, the
non-verifying evaluator, serialization sizes, fee-rate arithmetic) are
modelled from the specification, as marked on each definition.
-/

namespace Policy

/-- A script is an opaque byte sequence (spec section 3, "Script");
bytes are naturals below 256. -/
abbrev CScript := List Nat

/-- Reference to a previous output: transaction id plus index (spec section 3, "TxIn"). -/
structure COutPoint where
  hash : Nat
  n : Nat
deriving DecidableEq

/-- Modelled from the spec: the null previous-output reference that marks a
coinbase (generation) input. -/
def COutPoint.IsNull (o : COutPoint) : Bool :=
  o.hash == 0 && o.n == 4294967295

/-- A transaction input: previous-output reference, unlocking script, and an
optional witness stack (spec section 3, "TxIn"). -/
structure CTxIn where
  prevout : COutPoint
  scriptSig : CScript
  scriptWitness : List (List Nat)
deriving DecidableEq

/-- A transaction output: a value in the smallest currency unit and an output
script (spec section 3, "TxOut"). -/
structure CTxOut where
  nValue : Int
  scriptPubKey : CScript
deriving DecidableEq

/-- A transaction: version, inputs, outputs (spec section 3, "Transaction"). -/
structure CTransaction where
  nVersion : Int
  vin : List CTxIn
  vout : List CTxOut
deriving DecidableEq

/-- Modelled from the spec: the structure-derived coinbase flag (one input
whose previous-output reference is null). -/
def CTransaction.IsCoinBase (tx : CTransaction) : Bool :=
  match tx.vin with
  | [i] => i.prevout.IsNull
  | _ => false

/-- The coin-lookup collaborator (spec section 6): maps a previous-output
reference to the output it created.  The source accesses it as
mapInputs.AccessCoin(prevout).out. -/
abbrev CoinsView := COutPoint → CTxOut

/-- The caller-supplied set of ignorable rejection-reason identifiers
(spec section 3, "RejectionReasonSet"), with membership semantics. -/
abbrev IgnoreRejects := List String

/-! ## Script opcode decoding (external machinery, modelled from the spec) -/

/-- Modelled from the spec: decoding of one script operation (opcode plus
pushed data) from the byte stream, the external GetOp machinery used by
push-only checks, the solver and the evaluator.  Opcodes 1..75 push that many
following bytes; 76/77/78 carry an explicit 1/2/4-byte little-endian length;
all other opcodes carry no data.  A truncated push fails. -/
def getScriptOp : CScript → Option (Nat × List Nat × CScript)
  | [] => none
  | b :: rest =>
    if b ≤ 75 then
      if rest.length < b then none
      else some (b, rest.take b, rest.drop b)
    else if b = 76 then
      match rest with
      | [] => none
      | len :: r2 => if r2.length < len then none else some (b, r2.take len, r2.drop len)
    else if b = 77 then
      match rest with
      | l0 :: l1 :: r2 =>
        let len := l0 + 256 * l1
        if r2.length < len then none else some (b, r2.take len, r2.drop len)
      | _ => none
    else if b = 78 then
      match rest with
      | l0 :: l1 :: l2 :: l3 :: r2 =>
        let len := l0 + 256 * l1 + 65536 * l2 + 16777216 * l3
        if r2.length < len then none else some (b, r2.take len, r2.drop len)
      | _ => none
    else some (b, [], rest)

/-- Fuelled helper for IsPushOnly. -/
def IsPushOnlyFuel : Nat → CScript → Bool
  | 0, _ => false
  | _ + 1, [] => true
  | fuel + 1, s =>
    match getScriptOp s with
    | none => false
    | some (op, _, rest) => op ≤ 96 && IsPushOnlyFuel fuel rest

/-- Modelled from the spec: the external push-only test on an unlocking
script — every operation must decode and be a data push (opcode at most
OP_16 = 96). -/
def IsPushOnly (s : CScript) : Bool := IsPushOnlyFuel (s.length + 1) s

/-- Fuelled helper for parseOps. -/
def parseOpsFuel : Nat → CScript → Option (List (Nat × List Nat))
  | 0, _ => none
  | _ + 1, [] => some []
  | fuel + 1, s =>
    match getScriptOp s with
    | none => none
    | some (op, data, rest) =>
      match parseOpsFuel fuel rest with
      | none => none
      | some l => some ((op, data) :: l)

/-- Modelled from the spec: full decoding of a script into its operation
list, used by the external solver's template matching. -/
def parseOps (s : CScript) : Option (List (Nat × List Nat)) :=
  parseOpsFuel (s.length + 1) s

/-- Fuelled helper for EvalScript. -/
def EvalScriptFuel : Nat → List (List Nat) → CScript → Option (List (List Nat))
  | 0, _, _ => none
  | _ + 1, stack, [] => some stack
  | fuel + 1, stack, s =>
    match getScriptOp s with
    | none => none
    | some (op, data, rest) =>
      if op ≤ 78 then
        if data.length > 520 then none
        else EvalScriptFuel fuel (stack ++ [data]) rest
      else if op = 79 then EvalScriptFuel fuel (stack ++ [[129]]) rest
      else if 81 ≤ op ∧ op ≤ 96 then EvalScriptFuel fuel (stack ++ [[op - 80]]) rest
      else none

/-- Modelled from the spec: the external, non-signature-verifying script
evaluator, invoked by the policy code solely to materialize a scriptSig as a
data stack (spec sections 4.5 and 4.6).  Only data-push operations are
modelled: pushes (including OP_1NEGATE and the small-integer opcodes) grow
the stack, a pushed element over the 520-byte element limit fails, a
truncated push fails, and any non-push operation is treated as an
evaluation failure. -/
def EvalScript (s : CScript) : Option (List (List Nat)) :=
  EvalScriptFuel (s.length + 1) [] s

/-! ## Script classification primitives (external, modelled from the spec) -/

/-- Modelled from the spec: pay-to-script-hash template test — exactly
23 bytes, OP_HASH160 (169), a 20-byte push, OP_EQUAL (135). -/
def IsPayToScriptHash (s : CScript) : Bool :=
  s.length == 23 && s.headD 0 == 169 && s[1]? == some 20 && s.getLastD 0 == 135

/-- Modelled from the spec: decoding of a small-integer opcode. -/
def DecodeOP_N (op : Nat) : Nat := if op = 0 then 0 else op - 80

/-- Modelled from the spec: witness-program detection — a script of 4 to 42
bytes whose first opcode is OP_0 or OP_1..OP_16 (the version) and whose
second byte is a direct push covering exactly the rest (the program). -/
def IsWitnessProgram (s : CScript) : Option (Nat × List Nat) :=
  if s.length < 4 ∨ s.length > 42 then none
  else if ¬(s.headD 0 = 0 ∨ (81 ≤ s.headD 0 ∧ s.headD 0 ≤ 96)) then none
  else if s[1]? = some (s.length - 2) then some (DecodeOP_N (s.headD 0), s.drop 2)
  else none

/-- Modelled from the spec: the provably-unspendable test — a script that
begins with OP_RETURN (106) or exceeds the maximum script size. -/
def IsUnspendable (s : CScript) : Bool :=
  (s.length > 0 && s.headD 0 == 106) || s.length > 10000

/-! ## Serialization sizes and fee arithmetic (external, modelled from the spec) -/

/-- Modelled from the spec: byte length of a compact-size length marker. -/
def compactSizeLen (n : Nat) : Nat :=
  if n < 253 then 1 else if n < 65536 then 3 else if n < 4294967296 then 5 else 9

/-- Modelled from the spec: serialized size of an output — 8-byte value,
length marker, script bytes (the external GetSerializeSize on a TxOut). -/
def GetSerializeSizeTxOut (o : CTxOut) : Nat :=
  8 + compactSizeLen o.scriptPubKey.length + o.scriptPubKey.length

/-- Modelled from the spec: fee for a given serialized size under a rate in
satoshis per kilobyte (the external feeRate.fee of spec section 3); C++
integer division truncates. -/
def GetFee (satoshisPerK : Int) (nSize : Nat) : Int :=
  Int.tdiv (satoshisPerK * nSize) 1000

/-- Modelled from the spec: serialized size of an input — 36-byte
previous-output reference, scriptSig with length marker, 4-byte sequence. -/
def GetSerializeSizeTxIn (i : CTxIn) : Nat :=
  36 + compactSizeLen i.scriptSig.length + i.scriptSig.length + 4

/-- Modelled from the spec: serialized size of a transaction without
witness data. -/
def baseSize (tx : CTransaction) : Nat :=
  4 + compactSizeLen tx.vin.length + (tx.vin.map GetSerializeSizeTxIn).sum
    + compactSizeLen tx.vout.length + (tx.vout.map GetSerializeSizeTxOut).sum + 4

/-- Modelled from the spec: serialized size of one input's witness field. -/
def witnessFieldSize (w : List (List Nat)) : Nat :=
  compactSizeLen w.length + (w.map (fun item => compactSizeLen item.length + item.length)).sum

/-- Whether any input carries a witness. -/
def hasWitness (tx : CTransaction) : Bool :=
  tx.vin.any (fun i => !i.scriptWitness.isEmpty)

/-- Modelled from the spec: full serialized size, including the two
marker/flag bytes and the witness fields when any witness is present. -/
def totalSize (tx : CTransaction) : Nat :=
  if hasWitness tx then
    baseSize tx + 2 + (tx.vin.map (fun i => witnessFieldSize i.scriptWitness)).sum
  else baseSize tx

/-- Modelled from the spec: transaction weight — three times the
witness-stripped size plus the full size (the external weight accounting of
spec section 1). -/
def GetTransactionWeight (tx : CTransaction) : Nat :=
  3 * baseSize tx + totalSize tx

/-! ## The solver (external, modelled from the spec) -/

/-- The solver's tagged classification of an output script
(spec section 3, "Script"). -/
inductive TxoutType where
  | nonstandard
  | pubkey
  | pubkeyhash
  | scripthash
  | multisig
  | nulldata
  | witnessV0Scripthash
  | witnessV0Keyhash
deriving DecidableEq

/-- Modelled from the spec: a small-integer opcode (OP_0 or OP_1..OP_16). -/
def isSmallInt (op : Nat) : Bool := op == 0 || (81 ≤ op && op ≤ 96)

/-- Modelled from the spec: tail of the multisig template — one or more
33..65-byte public-key pushes, a small-integer key count, OP_CHECKMULTISIG
(174); returns the keys and the key-count opcode. -/
def collectMultisigKeys : List (Nat × List Nat) → Option (List (List Nat) × Nat)
  | [(nOp, _), (174, _)] => if isSmallInt nOp then some ([], nOp) else none
  | (_, d) :: rest =>
    if 33 ≤ d.length ∧ d.length ≤ 65 then
      match collectMultisigKeys rest with
      | some (ks, nOp) => some (d :: ks, nOp)
      | none => none
    else none
  | _ => none

/-- Modelled from the spec: template matching over a decoded operation list —
pay-to-pubkey, pay-to-pubkey-hash, and bare multisig (required-signature
count, keys, total-key count, OP_CHECKMULTISIG).  For multisig, the solution
list is the required-signature byte, the keys, then the total-key byte. -/
def matchTemplates (ops : List (Nat × List Nat)) : TxoutType × List (List Nat) :=
  match ops with
  | [(_, d), (172, _)] =>
    if 33 ≤ d.length ∧ d.length ≤ 65 then (.pubkey, [d]) else (.nonstandard, [])
  | [(118, _), (169, _), (_, d), (136, _), (172, _)] =>
    if d.length = 20 then (.pubkeyhash, [d]) else (.nonstandard, [])
  | (mOp, _) :: rest =>
    if isSmallInt mOp then
      match collectMultisigKeys rest with
      | some (ks, nOp) => (.multisig, [[DecodeOP_N mOp]] ++ ks ++ [[DecodeOP_N nOp]])
      | none => (.nonstandard, [])
    else (.nonstandard, [])
  | _ => (.nonstandard, [])

/-- Modelled from the spec: the external script solver — returns a definite
tagged type (nonstandard when unrecognized) plus the extracted parameters
(spec section 6).  Order: pay-to-script-hash shortcut, witness programs
(only version-0 key-hash and script-hash forms are recognized), null-data
(OP_RETURN followed by pushes only), then the generic templates. -/
def Solver (s : CScript) : TxoutType × List (List Nat) :=
  if IsPayToScriptHash s then (.scripthash, [(s.drop 2).take 20])
  else
    match IsWitnessProgram s with
    | some (v, prog) =>
      if v = 0 ∧ prog.length = 20 then (.witnessV0Keyhash, [prog])
      else if v = 0 ∧ prog.length = 32 then (.witnessV0Scripthash, [prog])
      else (.nonstandard, [])
    | none =>
      if s.headD 255 == 106 && IsPushOnly (s.drop 1) then (.nulldata, [])
      else
        match parseOps s with
        | none => (.nonstandard, [])
        | some ops => matchTemplates ops

/-- Fuelled helper for GetSigOpCount, carrying the previous opcode. -/
def GetSigOpCountFuel : Nat → Bool → Nat → CScript → Nat
  | 0, _, _, _ => 0
  | _ + 1, _, _, [] => 0
  | fuel + 1, fAccurate, lastOp, s =>
    match getScriptOp s with
    | none => 0
    | some (op, _, rest) =>
      (if op = 172 ∨ op = 173 then 1
       else if op = 174 ∨ op = 175 then
         (if fAccurate ∧ 81 ≤ lastOp ∧ lastOp ≤ 96 then lastOp - 80 else 20)
       else 0) + GetSigOpCountFuel fuel fAccurate op rest

/-- Modelled from the spec: the external signature-operation counter —
OP_CHECKSIG(VERIFY) counts one; OP_CHECKMULTISIG(VERIFY) counts, in accurate
mode, the preceding small-integer key count, otherwise the maximum of 20.
A decode failure stops the count. -/
def GetSigOpCount (fAccurate : Bool) (s : CScript) : Nat :=
  GetSigOpCountFuel (s.length + 1) fAccurate 255 s

/-! ## Policy constants (policy.h, modelled from the spec) -/

/-- Modelled from the spec: the fixed witness scale factor. -/
def WITNESS_SCALE_FACTOR : Nat := 4

/-- Modelled from the spec: highest standard transaction version. -/
def MAX_STANDARD_VERSION : Int := 2

/-- Modelled from the spec: weight bound for standard transactions. -/
def MAX_STANDARD_TX_WEIGHT : Nat := 400000

/-- Modelled from the spec: cap on a P2SH redeem script's sigop count. -/
def MAX_P2SH_SIGOPS : Nat := 15

/-- Modelled from the spec: byte cap on a standard P2WSH witness script. -/
def MAX_STANDARD_P2WSH_SCRIPT_SIZE : Nat := 3600

/-- Modelled from the spec: cap on standard P2WSH witness stack items. -/
def MAX_STANDARD_P2WSH_STACK_ITEMS : Nat := 100

/-- Modelled from the spec: byte cap on each standard P2WSH stack item. -/
def MAX_STANDARD_P2WSH_STACK_ITEM_SIZE : Nat := 80

/-- Modelled from the spec: data-carrier outputs enabled by configuration. -/
def fAcceptDatacarrier : Bool := true

/-- Modelled from the spec: maximum data-carrier script bytes. -/
def nMaxDatacarrierBytes : Nat := 83

/-- Modelled from the spec: bare multisig outputs permitted by configuration. -/
def fIsBareMultisigStd : Bool := true

/-- Modelled from the spec: the process-wide dust-relay fee rate, default
3000 satoshis per kilobyte. -/
def dustRelayFee : Int := 3000

/-- Modelled from the spec: bytes per signature operation for the virtual
size floor. -/
def nBytesPerSigOp : Int := 20

/-! ## The policy functions, translated from src/policy/policy.cpp -/

/-- GetDustThreshold (policy.cpp lines 19-51): zero for provably unspendable
outputs, otherwise the fee, at the given rate, on the output's serialized
size plus a typical spending input (32+4+1+4-byte skeleton plus a 107-byte
unlocking script, the script discounted by the witness scale factor for
witness programs). -/
def GetDustThreshold (txout : CTxOut) (dustRelayFeeIn : Int) : Int :=
  if IsUnspendable txout.scriptPubKey then 0
  else
    let nSize := GetSerializeSizeTxOut txout
    let nSize :=
      if (IsWitnessProgram txout.scriptPubKey).isSome then
        nSize + (32 + 4 + 1 + (107 / WITNESS_SCALE_FACTOR) + 4)
      else nSize + (32 + 4 + 1 + 107 + 4)
    GetFee dustRelayFeeIn nSize

/-- IsDust (policy.cpp lines 53-56). -/
def IsDust (txout : CTxOut) (dustRelayFeeIn : Int) : Bool :=
  txout.nValue < GetDustThreshold txout dustRelayFeeIn

/-- IsStandard (policy.cpp lines 78-101): classify an output script and apply
the standardness constraints; the classification is always produced, even
when the verdict is false. -/
def IsStandard (scriptPubKey : CScript) (witnessEnabled : Bool) : TxoutType × Bool :=
  let whichType := (Solver scriptPubKey).1
  let vSolutions := (Solver scriptPubKey).2
  if whichType = .nonstandard then (whichType, false)
  else if whichType = .multisig then
    let m := (vSolutions.headD []).headD 0
    let n := (vSolutions.getLastD []).headD 0
    if n < 1 ∨ n > 3 then (whichType, false)
    else if m < 1 ∨ m > n then (whichType, false)
    else (whichType, true)
  else if whichType = .nulldata ∧ (fAcceptDatacarrier = false ∨ scriptPubKey.length > nMaxDatacarrierBytes) then
    (whichType, false)
  else if witnessEnabled = false ∧ (whichType = .witnessV0Keyhash ∨ whichType = .witnessV0Scripthash) then
    (whichType, false)
  else (whichType, true)

/-- The per-input loop of IsStandardTx (policy.cpp lines 142-158): the
scriptsig-size check through MaybeReject, then the push-only check, which is
performed only when scriptsig-not-pushonly is not ignored. -/
def checkVin (ignore : IgnoreRejects) : List CTxIn → Option String
  | [] => none
  | txin :: rest =>
    if txin.scriptSig.length > 1650 ∧ "scriptsig-size" ∉ ignore then some "scriptsig-size"
    else if "scriptsig-not-pushonly" ∉ ignore ∧ IsPushOnly txin.scriptSig = false then
      some "scriptsig-not-pushonly"
    else checkVin ignore rest

/-- The per-output loop of IsStandardTx (policy.cpp lines 164-179):
classification, the bare-multisig and dust checks for non-null-data outputs,
and the count of null-data outputs, threaded through as nDataOut. -/
def checkVout (witnessEnabled : Bool) (ignore : IgnoreRejects) :
    List CTxOut → Nat → Except String Nat
  | [], nDataOut => .ok nDataOut
  | txout :: rest, nDataOut =>
    let r := IsStandard txout.scriptPubKey witnessEnabled
    if r.2 = false ∧ "scriptpubkey" ∉ ignore then .error "scriptpubkey"
    else if r.1 = .nulldata then checkVout witnessEnabled ignore rest (nDataOut + 1)
    else if r.1 = .multisig ∧ fIsBareMultisigStd = false ∧ "bare-multisig" ∉ ignore then
      .error "bare-multisig"
    else if IsDust txout dustRelayFee = true ∧ "dust" ∉ ignore then .error "dust"
    else checkVout witnessEnabled ignore rest nDataOut

/-- The guarded scriptSig loop of IsStandardTx (policy.cpp lines 140-159):
run only when at least one of its two reasons is not ignored. -/
def IsStandardTxVinLoop (tx : CTransaction) (ignore : IgnoreRejects) : Option String :=
  if "scriptsig-size" ∉ ignore ∨ "scriptsig-not-pushonly" ∉ ignore then
    checkVin ignore tx.vin
  else none

/-- The guarded output loop of IsStandardTx (policy.cpp lines 161-185),
including the trailing multi-op-return check on the null-data output count;
run only when at least one of its four reasons is not ignored. -/
def IsStandardTxVoutLoop (tx : CTransaction) (witnessEnabled : Bool)
    (ignore : IgnoreRejects) : Option String :=
  if ¬("scriptpubkey" ∈ ignore ∧ "bare-multisig" ∈ ignore ∧ "dust" ∈ ignore ∧
        "multi-op-return" ∈ ignore) then
    match checkVout witnessEnabled ignore tx.vout 0 with
    | .error r => some r
    | .ok nDataOut =>
      if nDataOut > 1 ∧ "multi-op-return" ∉ ignore then some "multi-op-return" else none
  else none

/-- IsStandardTx (policy.cpp lines 120-188): the version, weight, scriptSig
and output checks in source order, each rejection looked up in the ignore
set through MaybeReject first; none is the passing verdict, some r the
rejection with reason r.  The two loop guards of the source (skipping a loop
when every reason it can produce is ignored) are kept. -/
def IsStandardTx (tx : CTransaction) (witnessEnabled : Bool)
    (ignore : IgnoreRejects) : Option String :=
  if (tx.nVersion > MAX_STANDARD_VERSION ∨ tx.nVersion < 1) ∧ "version" ∉ ignore then
    some "version"
  else if "tx-size" ∉ ignore ∧ GetTransactionWeight tx ≥ MAX_STANDARD_TX_WEIGHT then
    some "tx-size"
  else
    match IsStandardTxVinLoop tx ignore with
    | some r => some r
    | none => IsStandardTxVoutLoop tx witnessEnabled ignore

/-- The loop body of AreInputsStandard (policy.cpp lines 196-231) on one
input: solver failure goes through MaybeReject as script-unknown; for a
pay-to-script-hash previous output a non-push-only scriptSig is skipped, an
evaluation failure or empty stack is a structural failure reported without
consulting the ignore set, and an oversized redeem-script sigop count goes
through MaybeReject as scriptcheck-sigops. -/
def checkInput (coins : CoinsView) (rp : String) (ignore : IgnoreRejects)
    (txin : CTxIn) : Option String :=
  let prevScript := (coins txin.prevout).scriptPubKey
  let whichType := (Solver prevScript).1
  if whichType = .nonstandard ∧ (rp ++ "script-unknown") ∉ ignore then
    some (rp ++ "script-unknown")
  else if whichType = .scripthash then
    if IsPushOnly txin.scriptSig = false then none
    else
      match EvalScript txin.scriptSig with
      | none => some (rp ++ "scriptsig-failure")
      | some stack =>
        if stack = [] then some (rp ++ "scriptcheck-missing")
        else if GetSigOpCount true (stack.getLastD []) > MAX_P2SH_SIGOPS ∧
                (rp ++ "scriptcheck-sigops") ∉ ignore then
          some (rp ++ "scriptcheck-sigops")
        else none
  else none

/-- The input loop of AreInputsStandard. -/
def checkInputs (coins : CoinsView) (rp : String) (ignore : IgnoreRejects) :
    List CTxIn → Option String
  | [] => none
  | i :: rest =>
    match checkInput coins rp ignore i with
    | some r => some r
    | none => checkInputs coins rp ignore rest

/-- AreInputsStandard (policy.cpp lines 190-235): passes for coinbase
transactions, otherwise checks each input in order. -/
def AreInputsStandard (tx : CTransaction) (coins : CoinsView) (rp : String)
    (ignore : IgnoreRejects) : Option String :=
  if tx.IsCoinBase = true then none else checkInputs coins rp ignore tx.vin

/-- The stack-item loop of IsWitnessStandard (policy.cpp lines 292-297). -/
def checkStackItems (rp : String) (ignore : IgnoreRejects) :
    List (List Nat) → Option String
  | [] => none
  | item :: rest =>
    if item.length > MAX_STANDARD_P2WSH_STACK_ITEM_SIZE ∧ (rp ++ "stackitem-size") ∉ ignore then
      some (rp ++ "stackitem-size")
    else checkStackItems rp ignore rest

/-- The loop body of IsWitnessStandard (policy.cpp lines 244-298) on one
input: inputs with an empty witness are skipped; a pay-to-script-hash
previous output is unwrapped one level through the evaluator, with
structural failures reported without consulting the ignore set; the
effective script must be a witness program (else nonwitness-input, also not
consulted); version-0 32-byte programs get the P2WSH limits through
MaybeReject. -/
def checkWitnessInput (coins : CoinsView) (rp : String) (ignore : IgnoreRejects)
    (txin : CTxIn) : Option String :=
  if txin.scriptWitness = [] then none
  else
    let prev := (coins txin.prevout).scriptPubKey
    let eff : Except String CScript :=
      if IsPayToScriptHash prev = true then
        match EvalScript txin.scriptSig with
        | none => .error (rp ++ "scriptsig-failure")
        | some [] => .error (rp ++ "scriptcheck-missing")
        | some (x :: xs) => .ok ((x :: xs).getLastD [])
      else .ok prev
    match eff with
    | .error r => some r
    | .ok prevScript =>
      match IsWitnessProgram prevScript with
      | none => some (rp ++ "nonwitness-input")
      | some (v, prog) =>
        if v = 0 ∧ prog.length = 32 then
          if (txin.scriptWitness.getLastD []).length > MAX_STANDARD_P2WSH_SCRIPT_SIZE ∧
              (rp ++ "script-size") ∉ ignore then
            some (rp ++ "script-size")
          else if txin.scriptWitness.length - 1 > MAX_STANDARD_P2WSH_STACK_ITEMS ∧
              (rp ++ "stackitem-count") ∉ ignore then
            some (rp ++ "stackitem-count")
          else checkStackItems rp ignore txin.scriptWitness.dropLast
        else none

/-- The input loop of IsWitnessStandard. -/
def checkWitnessInputs (coins : CoinsView) (rp : String) (ignore : IgnoreRejects) :
    List CTxIn → Option String
  | [] => none
  | i :: rest =>
    match checkWitnessInput coins rp ignore i with
    | some r => some r
    | none => checkWitnessInputs coins rp ignore rest

/-- IsWitnessStandard (policy.cpp lines 237-301): passes for coinbase
transactions, otherwise checks each input in order. -/
def IsWitnessStandard (tx : CTransaction) (coins : CoinsView) (rp : String)
    (ignore : IgnoreRejects) : Option String :=
  if tx.IsCoinBase = true then none else checkWitnessInputs coins rp ignore tx.vin

/-- GetVirtualTransactionSize (policy.cpp lines 308-311); C++ int64 division
truncates. -/
def GetVirtualTransactionSize (nWeight nSigOpCost : Int) : Int :=
  Int.tdiv (max nWeight (nSigOpCost * nBytesPerSigOp) + (WITNESS_SCALE_FACTOR : Int) - 1)
    (WITNESS_SCALE_FACTOR : Int)

/-! ## Derived characterization of IsStandardTx

The rejection reasons a transaction triggers are determined by the
transaction and the witness flag alone; the ignore set only filters them.
firedReasons lists them in the source's check order, and
IsStandardTx_eq_find proves the verdict is the first fired reason not in the
ignore set.  "The transaction triggers reason r" is formalized as
membership in this list. -/

/-- Boolean test that a reason is not in the ignore set. -/
def notIgnored (ignore : IgnoreRejects) (r : String) : Bool := decide (r ∉ ignore)

/-- Reasons the scriptSig loop of IsStandardTx triggers, in check order. -/
def firedVin : List CTxIn → List String
  | [] => []
  | i :: rest =>
    (if i.scriptSig.length > 1650 then ["scriptsig-size"] else []) ++
    (if IsPushOnly i.scriptSig = false then ["scriptsig-not-pushonly"] else []) ++
    firedVin rest

/-- Reasons the output loop of IsStandardTx triggers, in check order. -/
def firedVout (we : Bool) : List CTxOut → List String
  | [] => []
  | o :: rest =>
    let r := IsStandard o.scriptPubKey we
    (if r.2 = false then ["scriptpubkey"] else []) ++
    (if r.1 = .nulldata then [] else
      (if r.1 = .multisig ∧ fIsBareMultisigStd = false then ["bare-multisig"] else []) ++
      (if IsDust o dustRelayFee = true then ["dust"] else [])) ++
    firedVout we rest

/-- Number of outputs the solver classifies as null-data. -/
def countNullData (outs : List CTxOut) : Nat :=
  (outs.filter (fun o => decide ((Solver o.scriptPubKey).1 = .nulldata))).length

/-- All rejection reasons the transaction triggers, in the source's check
order. -/
def firedReasons (tx : CTransaction) (we : Bool) : List String :=
  (if tx.nVersion > MAX_STANDARD_VERSION ∨ tx.nVersion < 1 then ["version"] else []) ++
  ((if GetTransactionWeight tx ≥ MAX_STANDARD_TX_WEIGHT then ["tx-size"] else []) ++
   (firedVin tx.vin ++
    (firedVout we tx.vout ++
     (if countNullData tx.vout > 1 then ["multi-op-return"] else []))))

theorem IsStandard_fst (s : CScript) (we : Bool) : (IsStandard s we).1 = (Solver s).1 := by
  simp only [IsStandard]
  repeat' split
  all_goals rfl

theorem firedVin_mem {r : String} : ∀ {vin : List CTxIn}, r ∈ firedVin vin →
    r = "scriptsig-size" ∨ r = "scriptsig-not-pushonly" := by
  intro vin
  induction vin with
  | nil => intro h; simp [firedVin] at h
  | cons i rest ih =>
    intro h
    unfold firedVin at h
    simp only [List.mem_append] at h
    rcases h with (h | h) | h
    · left; split at h <;> simp_all
    · right; split at h <;> simp_all
    · exact ih h

theorem firedVout_mem {we : Bool} {r : String} : ∀ {outs : List CTxOut},
    r ∈ firedVout we outs →
    r = "scriptpubkey" ∨ r = "bare-multisig" ∨ r = "dust" := by
  intro outs
  induction outs with
  | nil => intro h; simp [firedVout] at h
  | cons o rest ih =>
    intro h
    unfold firedVout at h
    simp only [List.mem_append] at h
    rcases h with (h | h) | h
    · left; split at h <;> simp_all
    · split at h
      · simp at h
      · simp only [List.mem_append] at h
        rcases h with h | h
        · right; left; split at h <;> simp_all
        · right; right; split at h <;> simp_all
    · exact ih h

theorem checkVin_eq_find (ignore : IgnoreRejects) : ∀ vin : List CTxIn,
    checkVin ignore vin = (firedVin vin).find? (notIgnored ignore) := by
  intro vin
  induction vin with
  | nil => rfl
  | cons i rest ih =>
    unfold checkVin firedVin
    rw [List.find?_append, List.find?_append]
    by_cases h1 : i.scriptSig.length > 1650
    · by_cases h2 : "scriptsig-size" ∈ ignore
      · by_cases h3 : IsPushOnly i.scriptSig = false
        · by_cases h4 : "scriptsig-not-pushonly" ∈ ignore
          · simp [h1, h2, h3, h4, notIgnored, ih]
          · simp [h1, h2, h3, h4, notIgnored]
        · simp [h1, h2, h3, notIgnored, ih]
      · simp [h1, h2, notIgnored]
    · by_cases h3 : IsPushOnly i.scriptSig = false
      · by_cases h4 : "scriptsig-not-pushonly" ∈ ignore
        · simp [h1, h3, h4, notIgnored, ih]
        · simp [h1, h3, h4, notIgnored]
      · simp [h1, h3, notIgnored, ih]

theorem checkVout_eq_find (we : Bool) (ignore : IgnoreRejects) : ∀ (outs : List CTxOut) (n : Nat),
    checkVout we ignore outs n =
      (match (firedVout we outs).find? (notIgnored ignore) with
       | some r => .error r
       | none => .ok (n + countNullData outs)) := by
  intro outs
  induction outs with
  | nil => intro n; simp [checkVout, firedVout, countNullData, List.find?_nil]
  | cons o rest ih =>
    intro n
    unfold checkVout firedVout
    rw [List.find?_append, List.find?_append]
    have hnd : countNullData (o :: rest) =
        (if (Solver o.scriptPubKey).1 = .nulldata then 1 else 0) + countNullData rest := by
      unfold countNullData
      by_cases h : (Solver o.scriptPubKey).1 = .nulldata <;> (simp [h, List.filter]; try omega)
    by_cases hok : (IsStandard o.scriptPubKey we).2 = false <;>
      by_cases hpk : "scriptpubkey" ∈ ignore <;>
        by_cases hnull : (IsStandard o.scriptPubKey we).1 = .nulldata <;>
          by_cases hd : IsDust o dustRelayFee = true <;>
            by_cases hdS : "dust" ∈ ignore
    all_goals
      have hsolv := hnull
    all_goals
      rw [IsStandard_fst] at hsolv
    all_goals
      simp [hok, hpk, hnull, hd, hdS, notIgnored, fIsBareMultisigStd, ih, hnd, hsolv]
    all_goals
      try simp [Nat.add_assoc]

theorem firedVin_find_none {ignore : IgnoreRejects} (h1 : "scriptsig-size" ∈ ignore)
    (h2 : "scriptsig-not-pushonly" ∈ ignore) (vin : List CTxIn) :
    (firedVin vin).find? (notIgnored ignore) = none := by
  apply List.find?_eq_none.mpr
  intro r hr
  rcases firedVin_mem hr with h | h <;> subst h <;> simp [notIgnored, h1, h2]

theorem firedVout_find_none {ignore : IgnoreRejects} (h1 : "scriptpubkey" ∈ ignore)
    (h2 : "bare-multisig" ∈ ignore) (h3 : "dust" ∈ ignore) {we : Bool}
    (outs : List CTxOut) :
    (firedVout we outs).find? (notIgnored ignore) = none := by
  apply List.find?_eq_none.mpr
  intro r hr
  rcases firedVout_mem hr with h | h | h <;> subst h <;> simp [notIgnored, h1, h2, h3]

theorem vinLoop_eq_find (tx : CTransaction) (ignore : IgnoreRejects) :
    IsStandardTxVinLoop tx ignore = (firedVin tx.vin).find? (notIgnored ignore) := by
  unfold IsStandardTxVinLoop
  split
  · exact checkVin_eq_find ignore tx.vin
  · next h =>
    push_neg at h
    exact (firedVin_find_none h.1 h.2 tx.vin).symm

theorem voutLoop_eq_find (tx : CTransaction) (we : Bool) (ignore : IgnoreRejects) :
    IsStandardTxVoutLoop tx we ignore =
      (firedVout we tx.vout ++
        (if countNullData tx.vout > 1 then ["multi-op-return"] else [])).find?
        (notIgnored ignore) := by
  unfold IsStandardTxVoutLoop
  rw [List.find?_append]
  split
  · rw [checkVout_eq_find]
    cases hf : (firedVout we tx.vout).find? (notIgnored ignore) with
    | some r => simp
    | none =>
      by_cases hc : countNullData tx.vout > 1 <;>
        by_cases hcS : "multi-op-return" ∈ ignore <;>
          simp [hc, hcS, notIgnored]
  · next h =>
    push_neg at h
    rw [firedVout_find_none h.1 h.2.1 h.2.2.1 tx.vout]
    by_cases hc : countNullData tx.vout > 1 <;> simp [hc, notIgnored, h.2.2.2]

/-- IsStandardTx returns exactly the first triggered reason that is not in
the ignore set (none when every triggered reason is ignored). -/
theorem IsStandardTx_eq_find (tx : CTransaction) (we : Bool) (ignore : IgnoreRejects) :
    IsStandardTx tx we ignore = (firedReasons tx we).find? (notIgnored ignore) := by
  unfold IsStandardTx firedReasons
  rw [List.find?_append, List.find?_append, List.find?_append,
    ← vinLoop_eq_find tx ignore, ← voutLoop_eq_find tx we ignore]
  by_cases hv : tx.nVersion > MAX_STANDARD_VERSION ∨ tx.nVersion < 1 <;>
    by_cases hvS : "version" ∈ ignore <;>
      by_cases hw : GetTransactionWeight tx ≥ MAX_STANDARD_TX_WEIGHT <;>
        by_cases hwS : "tx-size" ∈ ignore <;>
          cases hvin : IsStandardTxVinLoop tx ignore <;>
            simp [hv, hvS, hw, hwS, hvin, notIgnored, Option.or]

/-! ## Shared helper lemmas for the claims -/

theorem find?_ext {α : Type} (p q : α → Bool) : ∀ l : List α,
    (∀ x ∈ l, p x = q x) → l.find? p = l.find? q := by
  intro l
  induction l with
  | nil => intro _; rfl
  | cons a t ih =>
    intro h
    have ha := h a (by simp)
    rw [List.find?_cons, List.find?_cons, ha]
    cases hq : q a
    · exact ih fun x hx => h x (by simp [hx])
    · rfl

theorem find?_first_target {α : Type} (p : α → Bool) (t : α) : ∀ l : List α,
    t ∈ l → p t = true → (∀ x ∈ l, p x = true → x = t) → l.find? p = some t := by
  intro l
  induction l with
  | nil => simp
  | cons a rest ih =>
    intro hmem hpt hall
    by_cases hpa : p a = true
    · have : a = t := hall a (by simp) hpa
      subst this
      simp [List.find?_cons, hpa]
    · rw [List.find?_cons_of_neg _ hpa]
      apply ih
      · rcases List.mem_cons.mp hmem with h | h
        · exact absurd (h ▸ hpt) hpa
        · exact h
      · exact hpt
      · intro x hx hpx
        exact hall x (by simp [hx]) hpx

theorem tdiv_four_eq_ceil (m : Int) (hm : 0 ≤ m) :
    Int.tdiv (m + 3) 4 = ⌈(m : ℚ) / 4⌉ := by
  rw [Int.tdiv_eq_ediv (by omega) (by norm_num)]
  symm
  rw [Int.ceil_eq_iff]
  constructor
  · rw [lt_div_iff₀ (by norm_num : (0:ℚ) < 4)]
    have h : ((m + 3) / 4 - 1) * 4 < m := by omega
    exact_mod_cast h
  · rw [div_le_iff₀ (by norm_num : (0:ℚ) < 4)]
    have h : m ≤ ((m + 3) / 4) * 4 := by omega
    exact_mod_cast h

/-! ## The claims -/

/-- Claim C7 (amended): GetVirtualTransactionSize(weight, sigopCost) equals
the ceiling of max(weight, sigopCost * nBytesPerSigOp) divided by the
witness scale factor 4, for non-negative arguments; in particular
GetVirtualTransactionSize(1000, 0) = 250 and
GetVirtualTransactionSize(0, 100 * nBytesPerSigOp) = 10000. -/
theorem C7_virtual_size :
    (∀ w c : Int, 0 ≤ w → 0 ≤ c →
       GetVirtualTransactionSize w c =
         ⌈((max w (c * nBytesPerSigOp) : Int) : ℚ) / ((WITNESS_SCALE_FACTOR : Nat) : ℚ)⌉) ∧
    GetVirtualTransactionSize 1000 0 = 250 ∧
    GetVirtualTransactionSize 0 (100 * nBytesPerSigOp) = 10000 := by
  refine ⟨?_, by decide, by decide⟩
  intro w c hw hc
  have hm : (0:Int) ≤ max w (c * nBytesPerSigOp) := le_trans hw (le_max_left _ _)
  have h1 : GetVirtualTransactionSize w c = Int.tdiv (max w (c * nBytesPerSigOp) + 3) 4 := by
    unfold GetVirtualTransactionSize WITNESS_SCALE_FACTOR
    norm_num
    congr 1
    omega
  rw [h1, tdiv_four_eq_ceil _ hm]
  norm_num [WITNESS_SCALE_FACTOR]

/-- Claim C7, witness instantiation of the amended formula. -/
theorem C7_witness :
    (0:Int) ≤ 8 ∧ (0:Int) ≤ 1 ∧
    GetVirtualTransactionSize 8 1 =
      ⌈((max (8:Int) (1 * nBytesPerSigOp) : Int) : ℚ) / ((WITNESS_SCALE_FACTOR : Nat) : ℚ)⌉ :=
  ⟨by norm_num, by norm_num, C7_virtual_size.1 8 1 (by norm_num) (by norm_num)⟩

/-- Claim C7, counterexample to the claim as stated: with the sigop cost
100 * nBytesPerSigOp, the virtual size is 10000, not 100. -/
theorem C7_counterexample :
    ¬ GetVirtualTransactionSize 0 (100 * nBytesPerSigOp) = 100 := by decide

/-- Claim C8: an output whose script is provably unspendable has dust
threshold 0 and is never dust, for every fee rate and every (well-formed,
non-negative) value. -/
theorem C8_unspendable_never_dust (txout : CTxOut) (rate : Int)
    (h : IsUnspendable txout.scriptPubKey = true) :
    GetDustThreshold txout rate = 0 ∧ (0 ≤ txout.nValue → IsDust txout rate = false) := by
  have ht : GetDustThreshold txout rate = 0 := by simp [GetDustThreshold, h]
  refine ⟨ht, fun hv => ?_⟩
  simp only [IsDust, ht]
  simp
  omega

/-- Claim C8, witness: an OP_RETURN output of value 7 at rate 3000. -/
theorem C8_witness :
    IsUnspendable ([106] : CScript) = true ∧
    GetDustThreshold ⟨7, [106]⟩ 3000 = 0 ∧ IsDust ⟨7, [106]⟩ 3000 = false :=
  ⟨by decide, (C8_unspendable_never_dust ⟨7, [106]⟩ 3000 (by decide)).1,
    (C8_unspendable_never_dust ⟨7, [106]⟩ 3000 (by decide)).2 (by decide)⟩

/-- Claim C10: whenever IsStandardTx rejects, the reported reason is not in
the supplied ignore set. -/
theorem C10_reported_reason_not_ignored (tx : CTransaction) (we : Bool)
    (ignore : IgnoreRejects) (r : String)
    (h : IsStandardTx tx we ignore = some r) : r ∉ ignore := by
  rw [IsStandardTx_eq_find] at h
  have hp := List.find?_some h
  simpa [notIgnored] using hp

/-- Claim C10, witness: a version-5 transaction rejected as version, with
version indeed absent from the empty ignore set. -/
theorem C10_witness :
    IsStandardTx ⟨5, [], []⟩ true [] = some "version" ∧
    "version" ∉ ([] : IgnoreRejects) :=
  ⟨by decide, C10_reported_reason_not_ignored ⟨5, [], []⟩ true [] "version" (by decide)⟩

/-- Claim C3: adding a reason the transaction does not trigger to the ignore
set changes neither the verdict nor the reported reason of IsStandardTx. -/
theorem C3_irrelevant_override (tx : CTransaction) (we : Bool) (ignore : IgnoreRejects)
    (r : String) (h : r ∉ firedReasons tx we) :
    IsStandardTx tx we (r :: ignore) = IsStandardTx tx we ignore := by
  rw [IsStandardTx_eq_find, IsStandardTx_eq_find]
  apply find?_ext
  intro x hx
  have hxr : x ≠ r := fun e => h (e ▸ hx)
  simp [notIgnored, List.mem_cons, hxr]

/-- Claim C3, witness: a trivially standard transaction does not trigger
dust, so ignoring dust leaves the verdict unchanged. -/
theorem C3_witness :
    "dust" ∉ firedReasons ⟨1, [], []⟩ true ∧
    IsStandardTx ⟨1, [], []⟩ true ["dust"] = IsStandardTx ⟨1, [], []⟩ true [] :=
  ⟨by decide, C3_irrelevant_override ⟨1, [], []⟩ true [] "dust" (by decide)⟩

/-- Claim C4: a transaction with two null-data outputs is rejected with
multi-op-return when that identifier is not ignored, and passes when it is
ignored, provided every other triggered reason is ignored (no other
non-ignored violation). -/
theorem C4_multi_op_return (tx : CTransaction) (we : Bool) (ignore : IgnoreRejects)
    (hcount : countNullData tx.vout = 2)
    (hother : ∀ r ∈ firedReasons tx we, r ≠ "multi-op-return" → r ∈ ignore) :
    ("multi-op-return" ∉ ignore → IsStandardTx tx we ignore = some "multi-op-return") ∧
    ("multi-op-return" ∈ ignore → IsStandardTx tx we ignore = none) := by
  have hmem : "multi-op-return" ∈ firedReasons tx we := by
    unfold firedReasons
    simp [hcount]
  constructor
  · intro hni
    rw [IsStandardTx_eq_find]
    apply find?_first_target (notIgnored ignore) "multi-op-return" _ hmem
    · simp [notIgnored, hni]
    · intro x hx hpx
      by_contra hxt
      have hxin := hother x hx hxt
      simp [notIgnored, hxin] at hpx
  · intro hin
    rw [IsStandardTx_eq_find]
    apply List.find?_eq_none.mpr
    intro x hx
    by_cases hxt : x = "multi-op-return"
    · subst hxt; simp [notIgnored, hin]
    · have hxin := hother x hx hxt
      simp [notIgnored, hxin]

/-- Claim C4, witness: a transaction with exactly two OP_RETURN outputs and
no other violation, rejected without the override and passing with it. -/
theorem C4_witness :
    IsStandardTx ⟨1, [], [⟨0, [106]⟩, ⟨0, [106]⟩]⟩ true [] = some "multi-op-return" ∧
    IsStandardTx ⟨1, [], [⟨0, [106]⟩, ⟨0, [106]⟩]⟩ true ["multi-op-return"] = none :=
  ⟨(C4_multi_op_return ⟨1, [], [⟨0, [106]⟩, ⟨0, [106]⟩]⟩ true [] (by decide)
      (by decide)).1 (by decide),
   (C4_multi_op_return ⟨1, [], [⟨0, [106]⟩, ⟨0, [106]⟩]⟩ true ["multi-op-return"] (by decide)
      (by decide)).2 (by decide)⟩

theorem IsStandard_multisig_iff (s : CScript) (we : Bool) (sols : List (List Nat))
    (h : Solver s = (.multisig, sols)) :
    ((IsStandard s we).2 = true ↔
      (1 ≤ (sols.getLastD []).headD 0 ∧ (sols.getLastD []).headD 0 ≤ 3 ∧
       1 ≤ (sols.headD []).headD 0 ∧
       (sols.headD []).headD 0 ≤ (sols.getLastD []).headD 0)) := by
  simp only [IsStandard, h]
  simp
  split_ifs with hA hB <;>
    simp <;>
    (set mv : ℕ := (sols.head?.getD []).head?.getD 0 with hmv
     set nv : ℕ := (sols.getLast?.getD []).head?.getD 0 with hnv
     omega)

/-- Claim C6: a script the solver classifies as multisig with
required-signature count m and total-key count n is standard iff
1 ≤ n ≤ 3 and 1 ≤ m ≤ n; in particular n = 4 is never standard. -/
theorem C6_multisig_bounds :
    (∀ (s : CScript) (we : Bool) (sols : List (List Nat)),
       Solver s = (.multisig, sols) →
       ((IsStandard s we).2 = true ↔
         (1 ≤ (sols.getLastD []).headD 0 ∧ (sols.getLastD []).headD 0 ≤ 3 ∧
          1 ≤ (sols.headD []).headD 0 ∧
          (sols.headD []).headD 0 ≤ (sols.getLastD []).headD 0))) ∧
    (∀ (s : CScript) (we : Bool) (sols : List (List Nat)),
       Solver s = (.multisig, sols) → (sols.getLastD []).headD 0 = 4 →
       (IsStandard s we).2 = false) := by
  refine ⟨fun s we sols h => IsStandard_multisig_iff s we sols h, ?_⟩
  intro s we sols h hn
  cases hb : (IsStandard s we).2
  · rfl
  · exfalso
    have hbounds := (IsStandard_multisig_iff s we sols h).mp hb
    rw [hn] at hbounds
    exact absurd hbounds.2.1 (by norm_num)

theorem Solver_scripthash {s : CScript} (h : IsPayToScriptHash s = true) :
    (Solver s).1 = .scripthash := by
  simp [Solver, h]

theorem p2pkh_not_p2sh {h : List Nat} (hl : h.length = 20) :
    IsPayToScriptHash ([118, 169, 20] ++ h ++ [136, 172]) = false := by
  simp [IsPayToScriptHash, hl]

theorem p2pkh_not_witness {h : List Nat} (hl : h.length = 20) :
    IsWitnessProgram ([118, 169, 20] ++ h ++ [136, 172]) = none := by
  have hlen : ([118, 169, 20] ++ h ++ [136, 172] : List Nat).length = 25 := by simp [hl]
  unfold IsWitnessProgram
  rw [if_neg (by rw [hlen]; norm_num), if_pos (by simp)]

theorem checkWitnessInput_nonwitness (coins : CoinsView) (rp : String)
    (ignore : IgnoreRejects) (txin : CTxIn)
    (hw : txin.scriptWitness ≠ [])
    (hp : IsPayToScriptHash (coins txin.prevout).scriptPubKey = false)
    (hwp : IsWitnessProgram (coins txin.prevout).scriptPubKey = none) :
    checkWitnessInput coins rp ignore txin = some (rp ++ "nonwitness-input") := by
  unfold checkWitnessInput
  simp [hw, hp, hwp]

theorem checkInput_skip (coins : CoinsView) (rp : String) (ignore : IgnoreRejects)
    (txin : CTxIn)
    (hp2sh : IsPayToScriptHash (coins txin.prevout).scriptPubKey = true)
    (hnp : IsPushOnly txin.scriptSig = false) :
    checkInput coins rp ignore txin = none := by
  unfold checkInput
  simp [Solver_scripthash hp2sh, hnp]

/-- Claim C9: in AreInputsStandard, an input whose previous output is
pay-to-script-hash and whose scriptSig is not push-only is conservatively
skipped: its check yields no rejection for any ignore set, and the input
loop behaves as if the input were absent. -/
theorem C9_p2sh_nonpushonly_skipped :
    (∀ (coins : CoinsView) (rp : String) (ignore : IgnoreRejects) (txin : CTxIn),
       IsPayToScriptHash (coins txin.prevout).scriptPubKey = true →
       IsPushOnly txin.scriptSig = false →
       checkInput coins rp ignore txin = none) ∧
    (∀ (coins : CoinsView) (rp : String) (ignore : IgnoreRejects)
       (pre post : List CTxIn) (txin : CTxIn),
       IsPayToScriptHash (coins txin.prevout).scriptPubKey = true →
       IsPushOnly txin.scriptSig = false →
       checkInputs coins rp ignore (pre ++ txin :: post) =
         checkInputs coins rp ignore (pre ++ post)) := by
  refine ⟨fun coins rp ignore txin hp hnp => checkInput_skip coins rp ignore txin hp hnp, ?_⟩
  intro coins rp ignore pre post txin hp hnp
  induction pre with
  | nil =>
    simp only [List.nil_append]
    show (match checkInput coins rp ignore txin with
          | some r => some r
          | none => checkInputs coins rp ignore post) = checkInputs coins rp ignore post
    rw [checkInput_skip coins rp ignore txin hp hnp]
  | cons a pre ih =>
    simp only [List.cons_append]
    show (match checkInput coins rp ignore a with
          | some r => some r
          | none => checkInputs coins rp ignore (pre ++ txin :: post)) =
         (match checkInput coins rp ignore a with
          | some r => some r
          | none => checkInputs coins rp ignore (pre ++ post))
    cases checkInput coins rp ignore a
    · simpa using ih
    · rfl

theorem wp_v0_32 {prog : List Nat} (hl : prog.length = 32) :
    IsWitnessProgram (0 :: 32 :: prog) = some (0, prog) := by
  have hlen : ((0 :: 32 :: prog) : List Nat).length = 34 := by simp [hl]
  unfold IsWitnessProgram
  rw [if_neg (by rw [hlen]; norm_num), if_neg (by simp), if_pos (by simp [hlen, hl])]
  simp [DecodeOP_N]

theorem wp_v0_32_not_p2sh {prog : List Nat} (hl : prog.length = 32) :
    IsPayToScriptHash (0 :: 32 :: prog) = false := by
  simp [IsPayToScriptHash, hl]

theorem checkStackItems_none (rp : String) (ignore : IgnoreRejects) :
    ∀ items : List (List Nat),
      (∀ it ∈ items, it.length ≤ MAX_STANDARD_P2WSH_STACK_ITEM_SIZE) →
      checkStackItems rp ignore items = none := by
  intro items
  induction items with
  | nil => intro _; rfl
  | cons it rest ih =>
    intro hall
    unfold checkStackItems
    rw [if_neg fun hc => absurd hc.1 (Nat.not_lt.mpr (hall it (by simp)))]
    exact ih fun x hx => hall x (by simp [hx])

/-- Claim C5: a non-coinbase transaction whose witness-bearing inputs all
spend version-0 32-byte witness programs directly, with the witness script
at most MAX_STANDARD_P2WSH_SCRIPT_SIZE bytes, at most
MAX_STANDARD_P2WSH_STACK_ITEMS remaining stack items, each at most
MAX_STANDARD_P2WSH_STACK_ITEM_SIZE bytes, passes IsWitnessStandard. -/
theorem C5_p2wsh_within_limits (tx : CTransaction) (coins : CoinsView) (rp : String)
    (ignore : IgnoreRejects) (hcb : tx.IsCoinBase = false)
    (hins : ∀ txin ∈ tx.vin, txin.scriptWitness ≠ [] →
      (∃ prog, prog.length = 32 ∧ (coins txin.prevout).scriptPubKey = [0, 32] ++ prog) ∧
      (txin.scriptWitness.getLastD []).length ≤ MAX_STANDARD_P2WSH_SCRIPT_SIZE ∧
      txin.scriptWitness.length - 1 ≤ MAX_STANDARD_P2WSH_STACK_ITEMS ∧
      (∀ item ∈ txin.scriptWitness.dropLast,
        item.length ≤ MAX_STANDARD_P2WSH_STACK_ITEM_SIZE)) :
    IsWitnessStandard tx coins rp ignore = none := by
  unfold IsWitnessStandard
  rw [hcb, if_neg (by simp)]
  revert hins
  generalize tx.vin = l
  intro hins
  induction l with
  | nil => rfl
  | cons i rest ih =>
    have hi := hins i (by simp)
    show (match checkWitnessInput coins rp ignore i with
          | some r => some r
          | none => checkWitnessInputs coins rp ignore rest) = none
    have hone : checkWitnessInput coins rp ignore i = none := by
      unfold checkWitnessInput
      by_cases hw : i.scriptWitness = []
      · simp [hw]
      · obtain ⟨⟨prog, hpl, hps⟩, h1, h2, h3⟩ := hi hw
        rw [List.getLastD_eq_getLast?] at h1
        simp [hw, hps, wp_v0_32_not_p2sh hpl, wp_v0_32 hpl, hpl,
          Nat.not_lt.mpr h1, Nat.not_lt.mpr h2,
          checkStackItems_none rp ignore _ h3]
    rw [hone]
    exact ih fun t ht hw => hins t (by simp [ht]) hw

/-- Claim C5, witness: one input with a two-item-free witness stack (a
single small witness script) spending a version-0 32-byte program. -/
theorem C5_witness :
    CTransaction.IsCoinBase ⟨1, [⟨⟨1, 0⟩, [], [[2, 3]]⟩], []⟩ = false ∧
    IsWitnessStandard ⟨1, [⟨⟨1, 0⟩, [], [[2, 3]]⟩], []⟩
      (fun _ => ⟨0, [0, 32] ++ List.replicate 32 0⟩) "" [] = none :=
  ⟨by decide,
   C5_p2wsh_within_limits ⟨1, [⟨⟨1, 0⟩, [], [[2, 3]]⟩], []⟩
     (fun _ => ⟨0, [0, 32] ++ List.replicate 32 0⟩) "" [] (by decide)
     (by
       intro txin ht hw
       simp only [List.mem_singleton] at ht
       subst ht
       exact ⟨⟨List.replicate 32 0, by decide, rfl⟩, by decide, by decide, by decide⟩)⟩

/-- Claim C2: the structural-failure reasons ignore the ignore set.  For
every ignore set (including one containing these identifiers): a
pay-to-script-hash input whose push-only scriptSig fails evaluation is
rejected as scriptsig-failure, one whose evaluation leaves an empty stack
as scriptcheck-missing (in AreInputsStandard's per-input check); the same
failures arise in IsWitnessStandard's per-input check when unwrapping a
P2SH-wrapped witness input; a non-empty witness whose effective
previous-output script is not a witness program is rejected as
nonwitness-input; in particular a whole-transaction IsWitnessStandard call
on a witness-bearing input spending plain pay-to-pubkey-hash fails with
nonwitness-input for every ignore set. -/
theorem C2_structural_not_ignorable :
    (∀ (coins : CoinsView) (rp : String) (ignore : IgnoreRejects) (txin : CTxIn),
       IsPayToScriptHash (coins txin.prevout).scriptPubKey = true →
       IsPushOnly txin.scriptSig = true →
       EvalScript txin.scriptSig = none →
       checkInput coins rp ignore txin = some (rp ++ "scriptsig-failure")) ∧
    (∀ (coins : CoinsView) (rp : String) (ignore : IgnoreRejects) (txin : CTxIn),
       IsPayToScriptHash (coins txin.prevout).scriptPubKey = true →
       IsPushOnly txin.scriptSig = true →
       EvalScript txin.scriptSig = some [] →
       checkInput coins rp ignore txin = some (rp ++ "scriptcheck-missing")) ∧
    (∀ (coins : CoinsView) (rp : String) (ignore : IgnoreRejects) (txin : CTxIn),
       txin.scriptWitness ≠ [] →
       IsPayToScriptHash (coins txin.prevout).scriptPubKey = true →
       EvalScript txin.scriptSig = none →
       checkWitnessInput coins rp ignore txin = some (rp ++ "scriptsig-failure")) ∧
    (∀ (coins : CoinsView) (rp : String) (ignore : IgnoreRejects) (txin : CTxIn),
       txin.scriptWitness ≠ [] →
       IsPayToScriptHash (coins txin.prevout).scriptPubKey = true →
       EvalScript txin.scriptSig = some [] →
       checkWitnessInput coins rp ignore txin = some (rp ++ "scriptcheck-missing")) ∧
    (∀ (coins : CoinsView) (rp : String) (ignore : IgnoreRejects) (txin : CTxIn),
       txin.scriptWitness ≠ [] →
       IsPayToScriptHash (coins txin.prevout).scriptPubKey = false →
       IsWitnessProgram (coins txin.prevout).scriptPubKey = none →
       checkWitnessInput coins rp ignore txin = some (rp ++ "nonwitness-input")) ∧
    (∀ (coins : CoinsView) (rp : String) (ignore : IgnoreRejects) (ver : Int)
       (vout : List CTxOut) (txin : CTxIn) (h : List Nat),
       h.length = 20 →
       txin.prevout.IsNull = false →
       txin.scriptWitness ≠ [] →
       (coins txin.prevout).scriptPubKey = [118, 169, 20] ++ h ++ [136, 172] →
       IsWitnessStandard ⟨ver, [txin], vout⟩ coins rp ignore =
         some (rp ++ "nonwitness-input")) := by
  refine ⟨?_, ?_, ?_, ?_, ?_, ?_⟩
  · intro coins rp ignore txin hp hpo hev
    unfold checkInput
    simp [Solver_scripthash hp, hpo, hev]
  · intro coins rp ignore txin hp hpo hev
    unfold checkInput
    simp [Solver_scripthash hp, hpo, hev]
  · intro coins rp ignore txin hw hp hev
    unfold checkWitnessInput
    simp [hw, hp, hev]
  · intro coins rp ignore txin hw hp hev
    unfold checkWitnessInput
    simp [hw, hp, hev]
  · intro coins rp ignore txin hw hp hwp
    exact checkWitnessInput_nonwitness coins rp ignore txin hw hp hwp
  · intro coins rp ignore ver vout txin h hl hnull hw hps
    have hcb : CTransaction.IsCoinBase ⟨ver, [txin], vout⟩ = false := by
      simp [CTransaction.IsCoinBase, hnull]
    have hp : IsPayToScriptHash (coins txin.prevout).scriptPubKey = false := by
      rw [hps]; exact p2pkh_not_p2sh hl
    have hwp : IsWitnessProgram (coins txin.prevout).scriptPubKey = none := by
      rw [hps]; exact p2pkh_not_witness hl
    unfold IsWitnessStandard
    rw [hcb]
    show (match checkWitnessInput coins rp ignore txin with
          | some r => some r
          | none => checkWitnessInputs coins rp ignore []) =
         some (rp ++ "nonwitness-input")
    rw [checkWitnessInput_nonwitness coins rp ignore txin hw hp hwp]

/-- Claim C2, witness: each structural failure produced with the failing
identifier itself in the ignore set. -/
theorem C2_witness :
    checkInput (fun _ => ⟨0, [169, 20] ++ List.replicate 20 0 ++ [135]⟩) ""
      ["scriptsig-failure"] ⟨⟨1, 0⟩, [80], []⟩ = some "scriptsig-failure" ∧
    checkInput (fun _ => ⟨0, [169, 20] ++ List.replicate 20 0 ++ [135]⟩) ""
      ["scriptcheck-missing"] ⟨⟨1, 0⟩, [], []⟩ = some "scriptcheck-missing" ∧
    checkWitnessInput (fun _ => ⟨0, [169, 20] ++ List.replicate 20 0 ++ [135]⟩) ""
      ["scriptsig-failure"] ⟨⟨1, 0⟩, [80], [[1]]⟩ = some "scriptsig-failure" ∧
    checkWitnessInput (fun _ => ⟨0, [169, 20] ++ List.replicate 20 0 ++ [135]⟩) ""
      ["scriptcheck-missing"] ⟨⟨1, 0⟩, [], [[1]]⟩ = some "scriptcheck-missing" ∧
    checkWitnessInput (fun _ => ⟨0, [172]⟩) "" ["nonwitness-input"]
      ⟨⟨1, 0⟩, [], [[1]]⟩ = some "nonwitness-input" ∧
    IsWitnessStandard ⟨1, [⟨⟨1, 0⟩, [], [[1]]⟩], []⟩
      (fun _ => ⟨0, [118, 169, 20] ++ List.replicate 20 0 ++ [136, 172]⟩) ""
      ["nonwitness-input"] = some "nonwitness-input" :=
  ⟨C2_structural_not_ignorable.1 _ "" _ _ (by decide) (by decide) (by decide),
   C2_structural_not_ignorable.2.1 _ "" _ _ (by decide) (by decide) (by decide),
   C2_structural_not_ignorable.2.2.1 _ "" _ _ (by decide) (by decide) (by decide),
   C2_structural_not_ignorable.2.2.2.1 _ "" _ _ (by decide) (by decide) (by decide),
   C2_structural_not_ignorable.2.2.2.2.1 _ "" _ _ (by decide) (by decide) (by decide),
   C2_structural_not_ignorable.2.2.2.2.2 _ "" _ 1 [] _ (List.replicate 20 0) (by decide)
     (by decide) (by decide) (by decide)⟩

theorem wp_v0_20 {prog : List Nat} (hl : prog.length = 20) :
    IsWitnessProgram (0 :: 20 :: prog) = some (0, prog) := by
  have hlen : ((0 :: 20 :: prog) : List Nat).length = 22 := by simp [hl]
  unfold IsWitnessProgram
  rw [if_neg (by rw [hlen]; norm_num), if_neg (by simp), if_pos (by simp [hlen, hl])]
  simp [DecodeOP_N]

/-- Claim C1 (amended): for a spendable output the dust threshold is the fee
on the output's own serialized size plus the typical-input estimate
(32+4+1+4-byte skeleton plus 107 unlocking-script bytes, the 107 divided by
the witness scale factor for witness programs, 67 versus 148 in total);
consequently the stated boundaries hold for the typical outputs: a
pay-to-pubkey-hash output is dust iff its value is below 182*rate/1000, and
a witness-v0 key-hash output iff below 98*rate/1000. -/
theorem C1_dust_threshold :
    (∀ (txout : CTxOut) (rate : Int), IsUnspendable txout.scriptPubKey = false →
       GetDustThreshold txout rate =
         GetFee rate (GetSerializeSizeTxOut txout +
           (if (IsWitnessProgram txout.scriptPubKey).isSome then 67 else 148))) ∧
    (∀ (h : List Nat) (v rate : Int), h.length = 20 →
       (IsDust ⟨v, [118, 169, 20] ++ h ++ [136, 172]⟩ rate = true ↔
         v < Int.tdiv (182 * rate) 1000)) ∧
    (∀ (h : List Nat) (v rate : Int), h.length = 20 →
       (IsDust ⟨v, [0, 20] ++ h⟩ rate = true ↔ v < Int.tdiv (98 * rate) 1000)) := by
  refine ⟨?_, ?_, ?_⟩
  · intro txout rate hu
    by_cases hw : (IsWitnessProgram txout.scriptPubKey).isSome <;>
      simp [GetDustThreshold, hu, hw, WITNESS_SCALE_FACTOR]
  · intro h v rate hl
    have hu : IsUnspendable (118 :: 169 :: 20 :: (h ++ [136, 172])) = false := by
      simp [IsUnspendable, hl]
    have hwp : IsWitnessProgram (118 :: 169 :: 20 :: (h ++ [136, 172])) = none := by
      have := p2pkh_not_witness hl
      simpa using this
    have hsz : GetSerializeSizeTxOut ⟨v, 118 :: 169 :: 20 :: (h ++ [136, 172])⟩ = 34 := by
      simp [GetSerializeSizeTxOut, compactSizeLen, hl]
    have hthr : GetDustThreshold ⟨v, 118 :: 169 :: 20 :: (h ++ [136, 172])⟩ rate =
        Int.tdiv (182 * rate) 1000 := by
      simp [GetDustThreshold, hu, hwp, hsz, GetFee, Int.mul_comm]
    simp [IsDust, hthr]
  · intro h v rate hl
    have hu : IsUnspendable (0 :: 20 :: h) = false := by
      simp [IsUnspendable, hl]
    have hwp : IsWitnessProgram (0 :: 20 :: h) = some (0, h) := wp_v0_20 hl
    have hsz : GetSerializeSizeTxOut ⟨v, 0 :: 20 :: h⟩ = 31 := by
      simp [GetSerializeSizeTxOut, compactSizeLen, hl]
    have hthr : GetDustThreshold ⟨v, 0 :: 20 :: h⟩ rate = Int.tdiv (98 * rate) 1000 := by
      simp [GetDustThreshold, hu, hwp, hsz, GetFee, WITNESS_SCALE_FACTOR, Int.mul_comm]
    simp [IsDust, hthr]

/-- Claim C1, witness: instantiations of the amended statement — threshold
formula on a bare OP_CHECKSIG output, and the 546/294 default-rate
boundaries on pay-to-pubkey-hash and witness-v0 key-hash outputs. -/
theorem C1_witness :
    IsUnspendable ([172] : CScript) = false ∧
    GetDustThreshold ⟨0, [172]⟩ 3000 =
      GetFee 3000 (GetSerializeSizeTxOut ⟨0, [172]⟩ +
        (if (IsWitnessProgram ([172] : CScript)).isSome then 67 else 148)) ∧
    IsDust ⟨545, [118, 169, 20] ++ List.replicate 20 7 ++ [136, 172]⟩ 3000 = true ∧
    IsDust ⟨293, [0, 20] ++ List.replicate 20 7⟩ 3000 = true :=
  ⟨by decide,
   C1_dust_threshold.1 ⟨0, [172]⟩ 3000 (by decide),
   (C1_dust_threshold.2.1 (List.replicate 20 7) 545 3000 (by decide)).mpr (by decide),
   (C1_dust_threshold.2.2 (List.replicate 20 7) 293 3000 (by decide)).mpr (by decide)⟩

/-- Claim C1, counterexample to the claim as stated: the dust threshold of a
bare OP_CHECKSIG output is the fee on 158 bytes (474 satoshis at the default
rate), not the fee on the 148-byte skeleton-plus-script alone (444); a
500-satoshi such output is not dust although 500 < 182*3000/1000 = 546; a
300-satoshi witness-v0 script-hash (32-byte program) output is dust although
300 is not below 98*3000/1000 = 294. -/
theorem C1_counterexample :
    ¬ ((GetDustThreshold ⟨0, [172]⟩ 3000 = GetFee 3000 (32 + 4 + 1 + 107 + 4)) ∧
       (IsDust ⟨500, [172]⟩ 3000 = true ↔ (500:Int) < Int.tdiv (182 * 3000) 1000) ∧
       (IsDust ⟨300, [0, 32] ++ List.replicate 32 0⟩ 3000 = true ↔
         (300:Int) < Int.tdiv (98 * 3000) 1000)) := by decide

/-- Claim C9, witness: a P2SH previous output spent with the non-push-only
scriptSig consisting of OP_RETURN is skipped and removable. -/
theorem C9_witness :
    checkInput (fun _ => ⟨0, [169, 20] ++ List.replicate 20 0 ++ [135]⟩) "" []
      ⟨⟨1, 0⟩, [106], []⟩ = none ∧
    checkInputs (fun _ => ⟨0, [169, 20] ++ List.replicate 20 0 ++ [135]⟩) "" []
      ([] ++ ⟨⟨1, 0⟩, [106], []⟩ :: []) =
      checkInputs (fun _ => ⟨0, [169, 20] ++ List.replicate 20 0 ++ [135]⟩) "" [] ([] ++ []) :=
  ⟨C9_p2sh_nonpushonly_skipped.1 _ "" [] ⟨⟨1, 0⟩, [106], []⟩ (by decide) (by decide),
   C9_p2sh_nonpushonly_skipped.2 _ "" [] [] [] ⟨⟨1, 0⟩, [106], []⟩ (by decide) (by decide)⟩

/-- Claim C6, witness: a 1-of-1 multisig script is standard; a multisig
script with total-key count 4 is not. -/
theorem C6_witness :
    (IsStandard ([81, 33] ++ List.replicate 33 0 ++ [81, 174]) true).2 = true ∧
    (IsStandard [81, 84, 174] true).2 = false :=
  ⟨(C6_multisig_bounds.1 ([81, 33] ++ List.replicate 33 0 ++ [81, 174]) true
      [[1], List.replicate 33 0, [1]] (by decide)).mpr (by decide),
   C6_multisig_bounds.2 [81, 84, 174] true [[1], [4]] (by decide) (by decide)⟩

end Policy
